import Mathlib

/-!
A shallow embedding of hyper's error module (`src/error.rs`): the `Error`
container with its `Kind`/`Parse`/`Header`/`User` taxonomy, the type-erased
cause chain, the nine introspection predicates, the `find_source` chain
walk, the `h2_reason` mapper, the named factory constructors, and the
`httparse::Error` to `Parse` conversion.  Types owned by external crates
(`std::io::Error`, `h2::Error`, `h2::Reason`, `httparse::Error`) are
modelled abstractly with exactly the operations this module calls on them.
All feature flags (`http1`, `http2`, `client`, `server`, `ffi`) are taken
as enabled, so every feature-gated variant and factory is present.
-/

namespace Hyper

/-- Models `h2::Reason`: an HTTP/2 error code carried as a numeric value. -/
structure H2Reason where
  code : Nat
deriving DecidableEq

/-- The default reason `h2::Reason::INTERNAL_ERROR` (HTTP/2 code 0x2). -/
def H2Reason.INTERNAL_ERROR : H2Reason := ⟨2⟩

/-- Models `std::io::Error` abstractly: a leaf transport failure carrying an
error-kind tag.  The module never inspects an io error's own source, so it
is modelled without one. -/
structure IoError where
  tag : Nat
deriving DecidableEq

/-- Models `h2::Error`: either an error carrying an HTTP/2 reason code (h2's
`Reset`, `GoAway` and `Reason` shapes), a user error carrying no reason
code, or an underlying I/O failure.  The three operations the module calls
on it (`reason()`, `is_io()`, `into_io()`) follow h2's API; an `h2::Error`
exposes no further `source`. -/
inductive H2Error
  | reasoned (r : H2Reason)
  | user
  | io (e : IoError)
deriving DecidableEq

/-- Models `h2::Error::reason`: the reason code, when the error carries one. -/
def H2Error.reason : H2Error → Option H2Reason
  | .reasoned r => some r
  | .user => none
  | .io _ => none

/-- Models `h2::Error::is_io`. -/
def H2Error.is_io : H2Error → Bool
  | .io _ => true
  | _ => false

/-- Models `h2::Error::into_io`: succeeds exactly when `is_io` holds. -/
def H2Error.into_io : H2Error → Option IoError
  | .io e => some e
  | _ => none

/-- Models the `Header` refinement of parse failures. -/
inductive Header
  | Token
  | ContentLengthInvalid
  | TransferEncodingInvalid
  | TransferEncodingUnexpected
deriving DecidableEq

/-- Models the `Parse` refinement of `Kind`. -/
inductive Parse
  | Method
  | Version
  | VersionH2
  | Uri
  | UriTooLong
  | Header (h : Header)
  | TooLarge
  | Status
  | Internal
deriving DecidableEq

/-- Models the `User` refinement of `Kind`. -/
inductive User
  | Body
  | BodyWriteAborted
  | Service
  | UnexpectedHeader
  | UnsupportedStatusCode
  | NoUpgrade
  | ManualUpgrade
  | DispatchGone
  | AbortedByCallback
deriving DecidableEq

/-- Models `Kind`, the top-level failure taxonomy. -/
inductive Kind
  | Parse (p : Parse)
  | User (u : User)
  | IncompleteMessage
  | UnexpectedMessage
  | Canceled
  | ChannelClosed
  | Io
  | HeaderTimeout
  | Body
  | BodyWrite
  | Shutdown
  | Http2
deriving DecidableEq

/-- Models a boxed `dyn StdError + Send + Sync` cause.  The constructors are
the concrete cause types the module handles — the `TimedOut` marker, a
`std::io::Error`, an `h2::Error`, a re-wrapped `hyper::Error` (carried as
its kind and its own optional cause) — plus an arbitrary foreign error that
may expose a source of its own.  `TimedOut`, io errors and h2 errors expose
no further source. -/
inductive ErasedError
  | TimedOut
  | io (e : IoError)
  | h2 (e : H2Error)
  | hyper (kind : Kind) (cause : Option ErasedError)
  | foreign (src : Option ErasedError)

/-- Models `hyper::Error`: one `Kind` and an optional erased cause.  The
`Box<ErrorImpl>` indirection of the source is memory layout only and is
flattened here. -/
structure Error where
  kind : Kind
  cause : Option ErasedError

/-- A `hyper::Error` boxed as the cause of an outer `Error` (re-wrapping). -/
def ErasedError.ofError (e : Error) : ErasedError := .hyper e.kind e.cause

/-- Models `<Error as StdError>::source`: the immediate cause, erased. -/
def Error.source (e : Error) : Option ErasedError := e.cause

/-- Models `StdError::source` on an erased link: a re-wrapped `hyper::Error`
exposes its own cause, a foreign error its own source, and the leaf cause
types expose none. -/
def ErasedError.sourceLink : ErasedError → Option ErasedError
  | .hyper _ c => c
  | .foreign c => c
  | _ => none

/-- Models `err.downcast_ref::<TimedOut>()` on an erased link. -/
def ErasedError.asTimedOut : ErasedError → Option Unit
  | .TimedOut => some ()
  | _ => none

/-- Models `err.downcast_ref::<h2::Error>()` on an erased link. -/
def ErasedError.asH2 : ErasedError → Option H2Error
  | .h2 e => some e
  | _ => none

/-- The loop of `Error::find_source`, generic in the typed downcast `dc`:
at each link first attempt the downcast, otherwise follow the link's own
source; stop when a link exposes none. -/
def findSourceWalk {α : Type} (dc : ErasedError → Option α) : ErasedError → Option α
  | .hyper k (some next) =>
    match dc (.hyper k (some next)) with
    | some a => some a
    | none => findSourceWalk dc next
  | .foreign (some next) =>
    match dc (.foreign (some next)) with
    | some a => some a
    | none => findSourceWalk dc next
  | l => dc l

/-- Models `Error::find_source::<E>`: walk the cause chain starting at the
immediate cause, attempting the typed downcast at every link; none when the
error has no cause or the chain is exhausted. -/
def Error.find_source {α : Type} (dc : ErasedError → Option α) (e : Error) : Option α :=
  match e.source with
  | some c => findSourceWalk dc c
  | none => none

/-- Models `Error::is_parse`. -/
def Error.is_parse (e : Error) : Bool :=
  match e.kind with
  | .Parse _ => true
  | _ => false

/-- Models `Error::is_parse_too_large`. -/
def Error.is_parse_too_large (e : Error) : Bool :=
  match e.kind with
  | .Parse .TooLarge => true
  | .Parse .UriTooLong => true
  | _ => false

/-- Models `Error::is_parse_status`. -/
def Error.is_parse_status (e : Error) : Bool :=
  match e.kind with
  | .Parse .Status => true
  | _ => false

/-- Models `Error::is_user`. -/
def Error.is_user (e : Error) : Bool :=
  match e.kind with
  | .User _ => true
  | _ => false

/-- Models `Error::is_canceled`. -/
def Error.is_canceled (e : Error) : Bool :=
  match e.kind with
  | .Canceled => true
  | _ => false

/-- Models `Error::is_closed`. -/
def Error.is_closed (e : Error) : Bool :=
  match e.kind with
  | .ChannelClosed => true
  | _ => false

/-- Models `Error::is_incomplete_message`. -/
def Error.is_incomplete_message (e : Error) : Bool :=
  match e.kind with
  | .IncompleteMessage => true
  | _ => false

/-- Models `Error::is_body_write_aborted`. -/
def Error.is_body_write_aborted (e : Error) : Bool :=
  match e.kind with
  | .User .BodyWriteAborted => true
  | _ => false

/-- Models `Error::is_timeout`: `find_source::<TimedOut>().is_some()`. -/
def Error.is_timeout (e : Error) : Bool :=
  (e.find_source ErasedError.asTimedOut).isSome

/-- Models `Error::new`. -/
def Error.new (kind : Kind) : Error := ⟨kind, none⟩

/-- Models `Error::with`, which attaches a cause (`with` is a Lean keyword,
so the model names it `withCause`). -/
def Error.withCause (e : Error) (cause : ErasedError) : Error := ⟨e.kind, some cause⟩

/-- Models `Error::h2_reason`: find an `h2::Error` somewhere in the cause
stack and take its reason, otherwise `INTERNAL_ERROR`. -/
def Error.h2_reason (e : Error) : H2Reason :=
  ((e.find_source ErasedError.asH2).bind H2Error.reason).getD H2Reason.INTERNAL_ERROR

/-- Models `Error::new_canceled`. -/
def Error.new_canceled : Error := Error.new .Canceled

/-- Models `Error::new_incomplete`. -/
def Error.new_incomplete : Error := Error.new .IncompleteMessage

/-- Models `Error::new_too_large`. -/
def Error.new_too_large : Error := Error.new (.Parse .TooLarge)

/-- Models `Error::new_version_h2`. -/
def Error.new_version_h2 : Error := Error.new (.Parse .VersionH2)

/-- Models `Error::new_unexpected_message`. -/
def Error.new_unexpected_message : Error := Error.new .UnexpectedMessage

/-- Models `Error::new_io`. -/
def Error.new_io (cause : IoError) : Error := (Error.new .Io).withCause (.io cause)

/-- Models `Error::new_closed`. -/
def Error.new_closed : Error := Error.new .ChannelClosed

/-- Models `Error::new_body`, generic in the erased cause. -/
def Error.new_body (cause : ErasedError) : Error := (Error.new .Body).withCause cause

/-- Models `Error::new_body_write`, generic in the erased cause. -/
def Error.new_body_write (cause : ErasedError) : Error :=
  (Error.new .BodyWrite).withCause cause

/-- Models `Error::new_body_write_aborted`. -/
def Error.new_body_write_aborted : Error := Error.new (.User .BodyWriteAborted)

/-- Models the private `Error::new_user`. -/
def Error.new_user (u : User) : Error := Error.new (.User u)

/-- Models `Error::new_user_header`. -/
def Error.new_user_header : Error := Error.new_user .UnexpectedHeader

/-- Models `Error::new_header_timeout`. -/
def Error.new_header_timeout : Error := Error.new .HeaderTimeout

/-- Models `Error::new_user_unsupported_status_code`. -/
def Error.new_user_unsupported_status_code : Error := Error.new_user .UnsupportedStatusCode

/-- Models `Error::new_user_no_upgrade`. -/
def Error.new_user_no_upgrade : Error := Error.new_user .NoUpgrade

/-- Models `Error::new_user_manual_upgrade`. -/
def Error.new_user_manual_upgrade : Error := Error.new_user .ManualUpgrade

/-- Models `Error::new_user_service`, generic in the erased cause. -/
def Error.new_user_service (cause : ErasedError) : Error :=
  (Error.new_user .Service).withCause cause

/-- Models `Error::new_user_body`, generic in the erased cause. -/
def Error.new_user_body (cause : ErasedError) : Error :=
  (Error.new_user .Body).withCause cause

/-- Models `Error::new_shutdown`. -/
def Error.new_shutdown (cause : IoError) : Error := (Error.new .Shutdown).withCause (.io cause)

/-- Models `Error::new_user_aborted_by_callback`. -/
def Error.new_user_aborted_by_callback : Error := Error.new_user .AbortedByCallback

/-- Models `Error::new_user_dispatch_gone`. -/
def Error.new_user_dispatch_gone : Error := Error.new (.User .DispatchGone)

/-- Models `Error::new_h2`: when the h2 error is fundamentally an I/O
failure it is re-tagged as `Kind::Io` carrying the extracted io error;
otherwise `Kind::Http2` with the h2 error retained as cause.  The inner
`none` arm models the `.expect("h2::Error::is_io")` path of the source,
which is unreachable because `is_io` holds exactly when `into_io`
succeeds. -/
def Error.new_h2 (cause : H2Error) : Error :=
  if cause.is_io then
    match cause.into_io with
    | some e => Error.new_io e
    | none => (Error.new .Http2).withCause (.h2 cause)
  else
    (Error.new .Http2).withCause (.h2 cause)

/-- Models `Error::description`: the fixed sentence chosen by the kind. -/
def Error.description (e : Error) : String :=
  match e.kind with
  | .Parse .Method => "invalid HTTP method parsed"
  | .Parse .Version => "invalid HTTP version parsed"
  | .Parse .VersionH2 => "invalid HTTP version parsed (found HTTP2 preface)"
  | .Parse .Uri => "invalid URI"
  | .Parse .UriTooLong => "URI too long"
  | .Parse (.Header .Token) => "invalid HTTP header parsed"
  | .Parse (.Header .ContentLengthInvalid) => "invalid content-length parsed"
  | .Parse (.Header .TransferEncodingInvalid) => "invalid transfer-encoding parsed"
  | .Parse (.Header .TransferEncodingUnexpected) => "unexpected transfer-encoding parsed"
  | .Parse .TooLarge => "message head is too large"
  | .Parse .Status => "invalid HTTP status-code parsed"
  | .Parse .Internal => "internal error inside Hyper and/or its dependencies, please report"
  | .IncompleteMessage => "connection closed before message completed"
  | .UnexpectedMessage => "received unexpected message from connection"
  | .ChannelClosed => "channel closed"
  | .Canceled => "operation was canceled"
  | .HeaderTimeout => "read header from client timeout"
  | .Body => "error reading a body from connection"
  | .BodyWrite => "error writing a body to connection"
  | .Shutdown => "error shutting down connection"
  | .Http2 => "http2 error"
  | .Io => "connection error"
  | .User .Body => "error from user's Body stream"
  | .User .BodyWriteAborted => "user body write aborted"
  | .User .Service => "error from user's Service"
  | .User .UnexpectedHeader => "user sent unexpected header"
  | .User .UnsupportedStatusCode => "response has 1xx status code, not supported by server"
  | .User .NoUpgrade => "no upgrade available"
  | .User .ManualUpgrade => "upgrade expected but low level API in use"
  | .User .DispatchGone => "dispatch task is gone"
  | .User .AbortedByCallback => "operation aborted by an application callback"

/-- Models `impl fmt::Display for Error`: writes exactly `description`. -/
def Error.display (e : Error) : String := e.description

/-- Models `httparse::Error`, the raw parser failure enum. -/
inductive HttparseError
  | HeaderName
  | HeaderValue
  | NewLine
  | Status
  | Token
  | TooManyHeaders
  | Version
deriving DecidableEq

/-- Models `impl From<httparse::Error> for Parse`. -/
def Parse.fromHttparse : HttparseError → Parse
  | .HeaderName | .HeaderValue | .NewLine | .Token => .Header .Token
  | .Status => .Status
  | .TooManyHeaders => .TooLarge
  | .Version => .Version

/-- The ordered cause chain below a link: the link itself, then the links
reached by repeatedly following each link's own source. -/
def ErasedError.chain : ErasedError → List ErasedError
  | .hyper k (some next) => .hyper k (some next) :: next.chain
  | .foreign (some next) => .foreign (some next) :: next.chain
  | l => [l]

/-- The cause chain of an `Error`: every link reachable from its immediate
cause by following each link's own source, in walk order. -/
def Error.causeChain (e : Error) : List ErasedError :=
  match e.cause with
  | some c => c.chain
  | none => []

/-- The nine introspection predicates of an `Error`, in the order they are
declared in the source. -/
def Error.predicates (e : Error) : List Bool :=
  [e.is_parse, e.is_parse_too_large, e.is_parse_status, e.is_user, e.is_canceled,
   e.is_closed, e.is_incomplete_message, e.is_body_write_aborted, e.is_timeout]

/-- The generic chain walk returns the first successful downcast along the
ordered cause chain. -/
theorem findSourceWalk_eq_findSome {α : Type} (dc : ErasedError → Option α) :
    (l : ErasedError) → findSourceWalk dc l = l.chain.findSome? dc
  | .TimedOut => by
    cases h : dc .TimedOut <;>
      simp [findSourceWalk, ErasedError.chain, List.findSome?_cons, h]
  | .io e => by
    cases h : dc (.io e) <;>
      simp [findSourceWalk, ErasedError.chain, List.findSome?_cons, h]
  | .h2 e => by
    cases h : dc (.h2 e) <;>
      simp [findSourceWalk, ErasedError.chain, List.findSome?_cons, h]
  | .hyper k none => by
    cases h : dc (.hyper k none) <;>
      simp [findSourceWalk, ErasedError.chain, List.findSome?_cons, h]
  | .foreign none => by
    cases h : dc (.foreign none) <;>
      simp [findSourceWalk, ErasedError.chain, List.findSome?_cons, h]
  | .hyper k (some next) => by
    have ih := findSourceWalk_eq_findSome dc next
    cases h : dc (.hyper k (some next)) <;>
      simp [findSourceWalk, ErasedError.chain, List.findSome?_cons, h, ih]
  | .foreign (some next) => by
    have ih := findSourceWalk_eq_findSome dc next
    cases h : dc (.foreign (some next)) <;>
      simp [findSourceWalk, ErasedError.chain, List.findSome?_cons, h, ih]

/-- A list member on which the selector succeeds makes `findSome?` succeed. -/
theorem findSome?_isSome_of_mem {α β : Type} {f : α → Option β} :
    ∀ {xs : List α} {x : α}, x ∈ xs → (f x).isSome = true →
      (xs.findSome? f).isSome = true := by
  intro xs
  induction xs with
  | nil => intro x h _; cases h
  | cons a as ih =>
    intro x hmem hfx
    rcases List.mem_cons.mp hmem with rfl | htail
    · cases h : f x
      · rw [h] at hfx; cases hfx
      · simp [List.findSome?_cons, h]
    · cases h : f a
      · simpa [List.findSome?_cons, h] using ih htail hfx
      · simp [List.findSome?_cons, h]

/-- The TimedOut downcast succeeds exactly on the TimedOut marker link. -/
theorem asTimedOut_eq_some {l : ErasedError} {u : Unit} :
    l.asTimedOut = some u ↔ l = .TimedOut := by
  cases l <;> simp [ErasedError.asTimedOut]

/-- The h2 downcast succeeds exactly on an h2 link, yielding that error. -/
theorem asH2_eq_some {l : ErasedError} {x : H2Error} :
    l.asH2 = some x ↔ l = .h2 x := by
  cases l <;> simp [ErasedError.asH2]

/-- An h2 error sitting in a chain is what the h2-typed first match finds:
h2 links expose no further source, so a chain holds at most one, at its
end. -/
theorem chain_findSome_asH2 :
    (l : ErasedError) → (x : H2Error) → ErasedError.h2 x ∈ l.chain →
      l.chain.findSome? ErasedError.asH2 = some x
  | .TimedOut, x, h => by simp [ErasedError.chain] at h
  | .io e, x, h => by simp [ErasedError.chain] at h
  | .h2 e, x, h => by
    simp only [ErasedError.chain, List.mem_singleton] at h
    cases h
    simp [ErasedError.chain, List.findSome?_cons, ErasedError.asH2]
  | .hyper k none, x, h => by simp [ErasedError.chain] at h
  | .foreign none, x, h => by simp [ErasedError.chain] at h
  | .hyper k (some next), x, h => by
    rw [ErasedError.chain] at h ⊢
    rcases List.mem_cons.mp h with heq | htail
    · exact absurd heq (by simp)
    · simp [List.findSome?_cons, ErasedError.asH2, chain_findSome_asH2 next x htail]
  | .foreign (some next), x, h => by
    rw [ErasedError.chain] at h ⊢
    rcases List.mem_cons.mp h with heq | htail
    · exact absurd heq (by simp)
    · simp [List.findSome?_cons, ErasedError.asH2, chain_findSome_asH2 next x htail]

/-- A chain free of h2 links makes the h2-typed first match fail. -/
theorem chain_findSome_asH2_eq_none {l : ErasedError}
    (h : ∀ x : H2Error, ErasedError.h2 x ∉ l.chain) :
    l.chain.findSome? ErasedError.asH2 = none := by
  cases hf : l.chain.findSome? ErasedError.asH2 with
  | none => rfl
  | some x =>
    obtain ⟨y, hy, hxy⟩ := List.exists_of_findSome?_eq_some hf
    rw [asH2_eq_some] at hxy
    exact absurd (hxy ▸ hy) (h x)

/-- The TimedOut walk succeeds exactly when the marker sits in the chain. -/
theorem walk_asTimedOut_isSome_iff {l : ErasedError} :
    (findSourceWalk ErasedError.asTimedOut l).isSome = true ↔
      ErasedError.TimedOut ∈ l.chain := by
  rw [findSourceWalk_eq_findSome]
  constructor
  · intro h
    obtain ⟨b, hb⟩ := Option.isSome_iff_exists.mp h
    obtain ⟨y, hy, hxy⟩ := List.exists_of_findSome?_eq_some hb
    rw [asTimedOut_eq_some] at hxy
    exact hxy ▸ hy
  · intro h
    exact findSome?_isSome_of_mem h (by simp [ErasedError.asTimedOut])

/-- C10: the Error built by `new_header_timeout` has `is_timeout` false:
the factory attaches no TimedOut cause and the predicate inspects only the
cause chain, never the Kind. -/
theorem header_timeout_is_not_timeout :
    Error.new_header_timeout.is_timeout = false := rfl

/-- C5: the conversion from `httparse::Error` into the Parse taxonomy is a
total function in which the HeaderName, HeaderValue, NewLine and Token
failures all collapse into the single header-token entry, TooManyHeaders
maps to the same entry as message-too-large (the `Parse::TooLarge` entry
that `new_too_large` wraps), Status maps to the status entry and Version to
the version entry. -/
theorem httparse_to_parse_table :
    Parse.fromHttparse .HeaderName = .Header .Token ∧
    Parse.fromHttparse .HeaderValue = .Header .Token ∧
    Parse.fromHttparse .NewLine = .Header .Token ∧
    Parse.fromHttparse .Token = .Header .Token ∧
    Parse.fromHttparse .TooManyHeaders = .TooLarge ∧
    Error.new_too_large.kind = .Parse (Parse.fromHttparse .TooManyHeaders) ∧
    Parse.fromHttparse .Status = .Status ∧
    Parse.fromHttparse .Version = .Version :=
  ⟨rfl, rfl, rfl, rfl, rfl, rfl, rfl, rfl⟩

/-- C6: `new_h2` re-classifies in exactly one case: an h2 error that is
fundamentally transport I/O becomes the `Io` Kind carrying the extracted io
error as cause, and every other h2 error becomes the `Http2` Kind with the
original h2 error retained as cause. -/
theorem new_h2_reclassifies_io_only :
    ∀ (ioe : IoError) (r : H2Reason),
      (H2Error.io ioe).is_io = true ∧
      Error.new_h2 (H2Error.io ioe) = Error.new_io ioe ∧
      (H2Error.reasoned r).is_io = false ∧
      Error.new_h2 (H2Error.reasoned r) =
        (Error.new .Http2).withCause (.h2 (.reasoned r)) ∧
      H2Error.user.is_io = false ∧
      Error.new_h2 H2Error.user = (Error.new .Http2).withCause (.h2 .user) :=
  fun _ _ => ⟨rfl, rfl, rfl, rfl, rfl, rfl⟩

/-- Every Kind's fixed sentence is non-empty. -/
theorem description_ne_empty : ∀ k : Kind, Error.description ⟨k, none⟩ ≠ "" := by
  intro k
  rcases k with p | u | _ | _ | _ | _ | _ | _ | _ | _ | _ | _ <;>
    (try rcases p with _ | _ | _ | _ | _ | h | _ | _ | _) <;>
    (try rcases h with _ | _ | _ | _) <;>
    (try rcases u with _ | _ | _ | _ | _ | _ | _ | _ | _) <;>
    decide

/-- C7: the Display text of an Error is one fixed sentence chosen solely by
its Kind — two Errors of the same Kind with different causes display
identically, so no cause-chain content reaches the text — and the sentence
is non-empty for every Kind. -/
theorem display_per_kind_fixed_nonempty :
    (∀ (k : Kind) (c c2 : Option ErasedError),
      Error.display ⟨k, c⟩ = Error.display ⟨k, c2⟩) ∧
    ∀ e : Error, Error.display e ≠ "" := by
  constructor
  · intro k c c2
    rfl
  · rintro ⟨k, c⟩
    exact description_ne_empty k

/-- C2: `is_timeout` is true exactly when the TimedOut marker is reachable
somewhere in the cause chain, crossing nested re-wrapped Errors, and a
canceled Error with no cause is not a timeout. -/
theorem is_timeout_iff_reachable :
    (∀ e : Error, e.is_timeout = true ↔ ErasedError.TimedOut ∈ e.causeChain) ∧
    Error.new_canceled.is_timeout = false := by
  constructor
  · rintro ⟨k, c⟩
    cases c with
    | none => simp [Error.is_timeout, Error.find_source, Error.source, Error.causeChain]
    | some l =>
      simpa [Error.is_timeout, Error.find_source, Error.source, Error.causeChain]
        using walk_asTimedOut_isSome_iff
  · rfl

/-- C3: when an h2 error carrying reason R sits in an Error's cause chain,
`h2_reason` returns R; and re-wrapping that Error as the cause of a
user-service Error still returns R, because the chain walk crosses
nested-Error boundaries. -/
theorem h2_reason_finds_reason_in_chain :
    ∀ (A : Error) (R : H2Reason),
      ErasedError.h2 (H2Error.reasoned R) ∈ A.causeChain →
      A.h2_reason = R ∧
        (Error.new_user_service (ErasedError.ofError A)).h2_reason = R := by
  rintro ⟨k, c⟩ R hmem
  cases c with
  | none => simp [Error.causeChain] at hmem
  | some l =>
    have hl : ErasedError.h2 (H2Error.reasoned R) ∈ l.chain := by
      simpa [Error.causeChain] using hmem
    have h1 := chain_findSome_asH2 l _ hl
    constructor
    · simp [Error.h2_reason, Error.find_source, Error.source,
        findSourceWalk_eq_findSome, h1, H2Error.reason]
    · have h2m : ErasedError.h2 (H2Error.reasoned R) ∈ (ErasedError.hyper k (some l)).chain := by
        rw [ErasedError.chain]
        exact List.mem_cons_of_mem _ hl
      have h2 := chain_findSome_asH2 (ErasedError.hyper k (some l)) _ h2m
      simp [Error.new_user_service, Error.new_user, Error.new, Error.withCause,
        Error.h2_reason, Error.find_source, Error.source, ErasedError.ofError,
        findSourceWalk_eq_findSome, h2, H2Error.reason]

/-- Witness for C3 at a concrete input: an h2 error with reason code 13
wrapped by `new_h2` and then re-wrapped by `new_user_service`. -/
theorem h2_reason_finds_reason_in_chain_witness :
    (Error.new_h2 (H2Error.reasoned ⟨13⟩)).h2_reason = ⟨13⟩ ∧
    (Error.new_user_service
      (ErasedError.ofError (Error.new_h2 (H2Error.reasoned ⟨13⟩)))).h2_reason = ⟨13⟩ :=
  h2_reason_finds_reason_in_chain (Error.new_h2 (H2Error.reasoned ⟨13⟩)) ⟨13⟩
    (List.Mem.head _)

/-- C4: `h2_reason` is a total function returning the default
INTERNAL_ERROR both for an Error with no cause at all and for any Error
whose cause chain holds no h2 error anywhere. -/
theorem h2_reason_total_default :
    (∀ k : Kind, (Error.new k).h2_reason = H2Reason.INTERNAL_ERROR) ∧
    ∀ e : Error, (∀ x : H2Error, ErasedError.h2 x ∉ e.causeChain) →
      e.h2_reason = H2Reason.INTERNAL_ERROR := by
  constructor
  · intro k
    rfl
  · rintro ⟨k, c⟩ h
    cases c with
    | none => rfl
    | some l =>
      have hn : l.chain.findSome? ErasedError.asH2 = none :=
        chain_findSome_asH2_eq_none (by simpa [Error.causeChain] using h)
      simp [Error.h2_reason, Error.find_source, Error.source,
        findSourceWalk_eq_findSome, hn]

/-- C9: the walk behind `h2_reason` takes the first h2 error in walk order
along the cause chain, and when that first h2 error carries no reason code
the result is the default INTERNAL_ERROR, whatever else the chain holds. -/
theorem h2_reason_first_h2_in_chain :
    ∀ e : Error,
      e.h2_reason =
        ((e.causeChain.findSome? ErasedError.asH2).bind H2Error.reason).getD
          H2Reason.INTERNAL_ERROR ∧
      ∀ x : H2Error, e.causeChain.findSome? ErasedError.asH2 = some x →
        x.reason = none → e.h2_reason = H2Reason.INTERNAL_ERROR := by
  have hmain : ∀ e : Error,
      e.h2_reason =
        ((e.causeChain.findSome? ErasedError.asH2).bind H2Error.reason).getD
          H2Reason.INTERNAL_ERROR := by
    rintro ⟨k, c⟩
    cases c with
    | none => rfl
    | some l =>
      simp [Error.h2_reason, Error.find_source, Error.source, Error.causeChain,
        findSourceWalk_eq_findSome]
  intro e
  refine ⟨hmain e, ?_⟩
  intro x hx hr
  rw [hmain e, hx]
  simp [hr]

/-- C1 counterexample: on the Error from `new_too_large` two of the nine
predicates return true at once, is_parse and is_parse_too_large, so no
single matching predicate can leave all eight others false. -/
theorem new_too_large_two_predicates_true :
    Error.new_too_large.is_parse = true ∧
    Error.new_too_large.is_parse_too_large = true :=
  ⟨rfl, rfl⟩

/-- C1 (amended): the nine predicates on each factory's Error are decided
by the factory's Kind: is_canceled alone holds for new_canceled;
is_incomplete_message alone for new_incomplete; is_parse together with
is_parse_too_large for new_too_large; is_parse alone for new_version_h2;
is_closed alone for new_closed; is_user alone for the new_user factories;
is_user together with is_body_write_aborted for new_body_write_aborted; and
none of the nine for new_unexpected_message, new_io, new_body,
new_body_write, new_header_timeout, new_shutdown and new_h2, provided any
attached cause chain carries no TimedOut marker.  Each profile lists the
nine predicate values in declaration order. -/
theorem factory_predicate_profiles :
    ∀ (ioe ioe2 : IoError) (h2e : H2Error) (cb cbw cs cub : ErasedError),
      (findSourceWalk ErasedError.asTimedOut cb).isSome = false →
      (findSourceWalk ErasedError.asTimedOut cbw).isSome = false →
      (findSourceWalk ErasedError.asTimedOut cs).isSome = false →
      (findSourceWalk ErasedError.asTimedOut cub).isSome = false →
      Error.new_canceled.predicates =
        [false, false, false, false, true, false, false, false, false] ∧
      Error.new_incomplete.predicates =
        [false, false, false, false, false, false, true, false, false] ∧
      Error.new_too_large.predicates =
        [true, true, false, false, false, false, false, false, false] ∧
      Error.new_version_h2.predicates =
        [true, false, false, false, false, false, false, false, false] ∧
      Error.new_unexpected_message.predicates =
        [false, false, false, false, false, false, false, false, false] ∧
      (Error.new_io ioe).predicates =
        [false, false, false, false, false, false, false, false, false] ∧
      Error.new_closed.predicates =
        [false, false, false, false, false, true, false, false, false] ∧
      (Error.new_body cb).predicates =
        [false, false, false, false, false, false, false, false, false] ∧
      (Error.new_body_write cbw).predicates =
        [false, false, false, false, false, false, false, false, false] ∧
      Error.new_body_write_aborted.predicates =
        [false, false, false, true, false, false, false, true, false] ∧
      Error.new_user_header.predicates =
        [false, false, false, true, false, false, false, false, false] ∧
      Error.new_header_timeout.predicates =
        [false, false, false, false, false, false, false, false, false] ∧
      Error.new_user_unsupported_status_code.predicates =
        [false, false, false, true, false, false, false, false, false] ∧
      Error.new_user_no_upgrade.predicates =
        [false, false, false, true, false, false, false, false, false] ∧
      Error.new_user_manual_upgrade.predicates =
        [false, false, false, true, false, false, false, false, false] ∧
      (Error.new_user_service cs).predicates =
        [false, false, false, true, false, false, false, false, false] ∧
      (Error.new_user_body cub).predicates =
        [false, false, false, true, false, false, false, false, false] ∧
      (Error.new_shutdown ioe2).predicates =
        [false, false, false, false, false, false, false, false, false] ∧
      Error.new_user_dispatch_gone.predicates =
        [false, false, false, true, false, false, false, false, false] ∧
      (Error.new_h2 h2e).predicates =
        [false, false, false, false, false, false, false, false, false] := by
  intro ioe ioe2 h2e cb cbw cs cub hcb hcbw hcs hcub
  refine ⟨rfl, rfl, rfl, rfl, rfl, rfl, rfl, ?_, ?_, rfl, rfl, rfl, rfl, rfl, rfl,
    ?_, ?_, rfl, rfl, ?_⟩
  · simp [Error.predicates, Error.is_parse, Error.is_parse_too_large,
      Error.is_parse_status, Error.is_user, Error.is_canceled, Error.is_closed,
      Error.is_incomplete_message, Error.is_body_write_aborted, Error.is_timeout,
      Error.find_source, Error.source, Error.new_body, Error.new, Error.withCause, hcb]
  · simp [Error.predicates, Error.is_parse, Error.is_parse_too_large,
      Error.is_parse_status, Error.is_user, Error.is_canceled, Error.is_closed,
      Error.is_incomplete_message, Error.is_body_write_aborted, Error.is_timeout,
      Error.find_source, Error.source, Error.new_body_write, Error.new,
      Error.withCause, hcbw]
  · simp [Error.predicates, Error.is_parse, Error.is_parse_too_large,
      Error.is_parse_status, Error.is_user, Error.is_canceled, Error.is_closed,
      Error.is_incomplete_message, Error.is_body_write_aborted, Error.is_timeout,
      Error.find_source, Error.source, Error.new_user_service, Error.new_user,
      Error.new, Error.withCause, hcs]
  · simp [Error.predicates, Error.is_parse, Error.is_parse_too_large,
      Error.is_parse_status, Error.is_user, Error.is_canceled, Error.is_closed,
      Error.is_incomplete_message, Error.is_body_write_aborted, Error.is_timeout,
      Error.find_source, Error.source, Error.new_user_body, Error.new_user,
      Error.new, Error.withCause, hcub]
  · cases h2e <;> rfl

/-- Witness for C1 at concrete inputs: every cause argument instantiated
with a leaf carrying no TimedOut marker; the projected conjunct is the
profile of `new_body`. -/
theorem factory_predicate_profiles_witness :
    (Error.new_body (ErasedError.foreign none)).predicates =
      [false, false, false, false, false, false, false, false, false] :=
  (factory_predicate_profiles ⟨0⟩ ⟨0⟩ H2Error.user (ErasedError.foreign none)
    (ErasedError.foreign none) (ErasedError.foreign none) (ErasedError.foreign none)
    rfl rfl rfl rfl).2.2.2.2.2.2.2.1

end Hyper
